import Mathlib

/-!
Shallow embedding of the form-validation and fixture-generation engine of the
repository (`utils/formValidation.js`, with the policy constants taken from
`testData/testData.js`), together with proofs of the specified properties.

JS strings are modelled as Lean `String`s viewed through their character
lists; JS regular expressions are modelled by executable character-list
matchers with the same anchored-match semantics; the calls to the system
random source (`Math.random()`) are modelled by explicit index parameters
ranging over the same intervals, and `Array.prototype.sort` with a random
comparator is modelled by an arbitrary permutation of its input.
-/

set_option maxHeartbeats 1000000

/-- The result object `{ isValid, errors }` returned by every validator. -/
structure ValidationResult where
  isValid : Bool
  errors : List String
  deriving Repr, DecidableEq

/-- The `formData` object consumed by the composite validators.  A `none`
field models a JS field that is absent (`undefined`). -/
structure FormData where
  email : Option String
  phone : Option String
  password : Option String
  deriving Repr, DecidableEq

/-- The set of characters matched by the JS regex class `\s`
(ECMAScript WhiteSpace and LineTerminator code points). -/
def isSpaceChar (c : Char) : Bool :=
  c == ' ' || c == '\t' || c == '\n' || c == '\r' ||
  c == Char.ofNat 0x0B || c == Char.ofNat 0x0C ||
  c == Char.ofNat 0xA0 || c == Char.ofNat 0x1680 ||
  (decide (0x2000 ≤ c.toNat) && decide (c.toNat ≤ 0x200A)) ||
  c == Char.ofNat 0x2028 || c == Char.ofNat 0x2029 ||
  c == Char.ofNat 0x202F || c == Char.ofNat 0x205F ||
  c == Char.ofNat 0x3000 || c == Char.ofNat 0xFEFF

/-- Characters matched by the JS regex class `[a-zA-Z]`. -/
def isAsciiLetter (c : Char) : Bool :=
  (decide ('a' ≤ c) && decide (c ≤ 'z')) || (decide ('A' ≤ c) && decide (c ≤ 'Z'))

/-- Characters matched by the JS regex class `[0-9]`. -/
def isAsciiDigit (c : Char) : Bool :=
  decide ('0' ≤ c) && decide (c ≤ '9')

/-- Embedding of `testData.passwordRequirements.minLength` from `testData/testData.js`. -/
def minLength : Nat := 9

/-- Embedding of `testData.passwordRequirements.mustContain.specialChars` from
`testData/testData.js`. -/
def specialChars : List Char := ['#', '?', '!', '@', '$', '%', '^', '&', '*', '-']

/-- Characters matched by the character class the source builds from
`specialChars.join('\\')` (each listed character, backslash-escaped). -/
def isSpecialChar (c : Char) : Bool :=
  specialChars.contains c

/-- The error messages pushed by the validators, verbatim from the source.
`msgMinLength` is the template string instantiated at `minLength = 9`. -/
def msgMinLength : String := "Password must be at least 9 characters long"

def msgLetters : String := "Password must include letters"

def msgNumbers : String := "Password must include numbers"

def msgSpecial : String := "Password must include at least one special character (# ? ! @ $ % ^ & * -)"

def msgEmailRequired : String := "Email is required"

def msgEmailInvalid : String := "Please enter a valid email address"

def msgPhoneRequired : String := "Phone number is required"

def msgPhoneInvalidSignup : String := "Please enter a valid phone number (+966XXXXXXXXX)"

def msgPhoneInvalidSignin : String := "Please enter a valid mobile number"

def msgPasswordRequired : String := "Password is required"

def msgSigninEmailRequired : String := "Please enter your email address"

def msgSigninPasswordRequired : String := "Please enter your password"

/-- The mutation pattern `if (cond) { result.isValid = false;
result.errors.push(msg) }` shared by every check in the source. -/
def addError (cond : Bool) (msg : String) (r : ValidationResult) : ValidationResult :=
  if cond then { isValid := false, errors := r.errors ++ [msg] } else r

/-- Embedding of `FormValidation.validatePassword`: the four policy checks run in
sequence, each appending its own error. -/
def validatePassword (password : String) : ValidationResult :=
  addError (!(password.data.any isSpecialChar)) msgSpecial
    (addError (!(password.data.any isAsciiDigit)) msgNumbers
      (addError (!(password.data.any isAsciiLetter)) msgLetters
        (addError (decide (password.data.length < minLength)) msgMinLength
          { isValid := true, errors := [] })))

/-- Anchored match of `[0-9]{n}$` against a character list: exactly `n`
decimal digits and nothing else. -/
def matchDigits : Nat → List Char → Bool
  | 0, [] => true
  | 0, _ :: _ => false
  | _ + 1, [] => false
  | n + 1, c :: cs => isAsciiDigit c && matchDigits n cs

/-- Embedding of `FormValidation.isValidPhone`: test of the regex `^[0-9]{9}$`. -/
def isValidPhone (phone : String) : Bool :=
  matchDigits 9 phone.data

/-- Characters matched by the JS regex class `[^\s@]`. -/
def atomChar (c : Char) : Bool :=
  !isSpaceChar c && !(c == '@')

/-- Anchored match of `[^\s@]+$`: a nonempty run of atom characters to the
end of the input. -/
def tailAtoms : List Char → Bool
  | [] => false
  | c :: cs => atomChar c && cs.all atomChar

/-- Match of `[^\s@]*\.[^\s@]+$` with the regex engine's backtracking: at
each position either the literal dot matches here, or another atom
character is consumed. -/
def domainGo : List Char → Bool
  | [] => false
  | c :: cs => (c == '.' && tailAtoms cs) || (atomChar c && domainGo cs)

/-- Anchored match of `[^\s@]+\.[^\s@]+$`. -/
def matchDomain : List Char → Bool
  | [] => false
  | c :: cs => atomChar c && domainGo cs

/-- Match of `[^\s@]*@` followed by the domain part: either the `@` matches
here, or another local-part atom is consumed. -/
def localGo : List Char → Bool
  | [] => false
  | c :: cs => (c == '@' && matchDomain cs) || (atomChar c && localGo cs)

/-- Anchored match of the full email regex `^[^\s@]+@[^\s@]+\.[^\s@]+$`. -/
def matchEmail : List Char → Bool
  | [] => false
  | c :: cs => atomChar c && localGo cs

/-- Embedding of `FormValidation.isValidEmail`: test of `^[^\s@]+@[^\s@]+\.[^\s@]+$`. -/
def isValidEmail (email : String) : Bool :=
  matchEmail email.data

/-- The truthiness-plus-trim emptiness test `!field || field.trim() === ''`
applied to an optional field: absent, empty, or whitespace-only. -/
def isBlankOpt : Option String → Bool
  | none => true
  | some s => s.data.all isSpaceChar

/-- Embedding of `FormValidation.validateSignupForm`: identity check (email- or
phone-mode), then the password check which delegates to
`validatePassword` when the password is present. -/
def validateSignupForm (formData : FormData) (isEmailSignup : Bool) : ValidationResult :=
  let r0 : ValidationResult := { isValid := true, errors := [] }
  let r1 :=
    if isEmailSignup then
      if isBlankOpt formData.email then addError true msgEmailRequired r0
      else addError (!isValidEmail (formData.email.getD "")) msgEmailInvalid r0
    else
      if isBlankOpt formData.phone then addError true msgPhoneRequired r0
      else addError (!isValidPhone (formData.phone.getD "")) msgPhoneInvalidSignup r0
  if isBlankOpt formData.password then addError true msgPasswordRequired r1
  else
    let pv := validatePassword (formData.password.getD "")
    if !pv.isValid then { isValid := false, errors := r1.errors ++ pv.errors } else r1

/-- Embedding of `FormValidation.validateSigninForm`: identity check (email- or
phone-mode), then a presence-only password check. -/
def validateSigninForm (formData : FormData) (isEmailSignin : Bool) : ValidationResult :=
  let r0 : ValidationResult := { isValid := true, errors := [] }
  let r1 :=
    if isEmailSignin then
      if isBlankOpt formData.email then addError true msgSigninEmailRequired r0
      else addError (!isValidEmail (formData.email.getD "")) msgEmailInvalid r0
    else
      if isBlankOpt formData.phone then addError true msgPhoneRequired r0
      else addError (!isValidPhone (formData.phone.getD "")) msgPhoneInvalidSignin r0
  if isBlankOpt formData.password then addError true msgSigninPasswordRequired r1
  else r1

/-- The alphabet `letters` of `generateValidPassword`. -/
def lettersChars : List Char :=
  "ABCDEFGHIJKLMNOPQRSTUVWXYZabcdefghijklmnopqrstuvwxyz".data

/-- The alphabet `numbers` of `generateValidPassword`. -/
def numberChars : List Char := "0123456789".data

/-- The alphabet `specialChars` of `generateValidPassword`. -/
def specialGenChars : List Char := "#?!@$%^&*-".data

/-- The alphabet `allChars = letters + numbers` used for the padding loop. -/
def allFillChars : List Char := lettersChars ++ numberChars

/-- Embedding of `FormValidation.generateValidPassword` before the final shuffle: one
letter, one number, one special character, then `9 - 3` characters drawn
from `allChars`.  Each `Math.floor(Math.random() * alphabet.length)` draw
is modelled by an explicit index over the same range. -/
def generateValidPasswordPre (li : Fin 52) (ni : Fin 10) (si : Fin 10)
    (fill : Fin 6 → Fin 62) : List Char :=
  lettersChars.get (Fin.cast (by rfl) li) ::
  numberChars.get (Fin.cast (by rfl) ni) ::
  specialGenChars.get (Fin.cast (by rfl) si) ::
  List.ofFn (fun k => allFillChars.get (Fin.cast (by rfl) (fill k)))

/-- The decimal digit characters produced by `Number.prototype.toString`. -/
def digitChar (d : Nat) : Char := Char.ofNat (48 + d)

/-- Fuelled most-significant-first decimal expansion of a natural number
(the fuel only bounds the recursion; `decimalAux n n` is exact). -/
def decimalAux : Nat → Nat → List Char
  | 0, _ => []
  | fuel + 1, n =>
    if n = 0 then [] else decimalAux fuel (n / 10) ++ [digitChar (n % 10)]

/-- Embedding of `random.toString()` for a natural number: its decimal digits, with the
single digit `0` for zero. -/
def natToChars (n : Nat) : List Char :=
  if n = 0 then ['0'] else decimalAux n n

/-- Embedding of `String.prototype.padStart(width, c)`. -/
def padStart (width : Nat) (c : Char) (l : List Char) : List Char :=
  List.replicate (width - l.length) c ++ l

/-- Embedding of `FormValidation.generateRandomPhone`: the draw
`Math.floor(Math.random() * 1000000000)` is modelled by the parameter
`random`, constrained to the same interval in the theorems. -/
def generateRandomPhone (random : Nat) : String :=
  "+966" ++ String.mk (padStart 9 '0' (natToChars random))

theorem addError_errors (c : Bool) (m : String) (r : ValidationResult) :
    (addError c m r).errors = r.errors ++ (if c then [m] else []) := by
  cases c <;> simp [addError]

theorem addError_isValid (c : Bool) (m : String) (r : ValidationResult) :
    (addError c m r).isValid = (!c && r.isValid) := by
  cases c <;> simp [addError]

theorem addError_invariant (c : Bool) (m : String) (r : ValidationResult)
    (h : r.isValid = r.errors.isEmpty) :
    (addError c m r).isValid = (addError c m r).errors.isEmpty := by
  cases c <;> simp [addError, h]

theorem validatePassword_invariant (p : String) :
    (validatePassword p).isValid = (validatePassword p).errors.isEmpty := by
  unfold validatePassword
  apply addError_invariant
  apply addError_invariant
  apply addError_invariant
  apply addError_invariant
  rfl

theorem validatePassword_errors_nil {p : String}
    (h : (validatePassword p).isValid = true) : (validatePassword p).errors = [] := by
  have hinv := validatePassword_invariant p
  rw [h] at hinv
  exact List.isEmpty_iff.mp hinv.symm

theorem validatePassword_errors_ne_nil {p : String}
    (h : (validatePassword p).isValid = false) : (validatePassword p).errors ≠ [] := by
  have hinv := validatePassword_invariant p
  rw [h] at hinv
  intro hnil
  rw [hnil] at hinv
  simp at hinv

theorem validatePassword_errors_eq (p : String) :
    (validatePassword p).errors =
      (if decide (p.data.length < minLength) then [msgMinLength] else []) ++
      ((if !(p.data.any isAsciiLetter) then [msgLetters] else []) ++
       ((if !(p.data.any isAsciiDigit) then [msgNumbers] else []) ++
        (if !(p.data.any isSpecialChar) then [msgSpecial] else []))) := by
  simp only [validatePassword, addError_errors, List.nil_append, List.append_assoc]

theorem validatePassword_isValid_eq (p : String) :
    (validatePassword p).isValid =
      (p.data.any isSpecialChar && (p.data.any isAsciiDigit &&
       (p.data.any isAsciiLetter && !(decide (p.data.length < minLength))))) := by
  simp only [validatePassword, addError_isValid, Bool.not_not, Bool.and_true]

theorem matchDigits_iff (n : Nat) (l : List Char) :
    matchDigits n l = true ↔ l.length = n ∧ ∀ c ∈ l, isAsciiDigit c = true := by
  induction n generalizing l with
  | zero => cases l <;> simp [matchDigits]
  | succ n ih =>
    cases l with
    | nil => simp [matchDigits]
    | cons c cs =>
      simp [matchDigits, ih, List.forall_mem_cons]
      tauto

theorem tailAtoms_iff (l : List Char) :
    tailAtoms l = true ↔ l ≠ [] ∧ ∀ c ∈ l, atomChar c = true := by
  cases l with
  | nil => simp [tailAtoms]
  | cons c cs => simp [tailAtoms, List.all_eq_true, List.forall_mem_cons]

theorem domainGo_iff (l : List Char) :
    domainGo l = true ↔
      ∃ B C, l = B ++ '.' :: C ∧ (∀ c ∈ B, atomChar c = true) ∧
        C ≠ [] ∧ ∀ c ∈ C, atomChar c = true := by
  induction l with
  | nil =>
    constructor
    · intro h
      simp [domainGo] at h
    · rintro ⟨B, C, hBC, -⟩
      exact absurd (List.append_eq_nil.mp hBC.symm).2 (List.cons_ne_nil '.' C)
  | cons c cs ih =>
    constructor
    · intro h
      simp only [domainGo, Bool.or_eq_true, Bool.and_eq_true, beq_iff_eq] at h
      rcases h with ⟨hdot, htail⟩ | ⟨hatom, hgo⟩
      · obtain ⟨hne, hall⟩ := (tailAtoms_iff cs).mp htail
        subst hdot
        exact ⟨[], cs, rfl, by simp, hne, hall⟩
      · obtain ⟨B, C, hBC, hB, hCne, hC⟩ := ih.mp hgo
        refine ⟨c :: B, C, by rw [hBC, List.cons_append], ?_, hCne, hC⟩
        intro x hx
        rcases List.mem_cons.mp hx with hxc | hxB
        · subst hxc; exact hatom
        · exact hB x hxB
    · rintro ⟨B, C, hBC, hB, hCne, hC⟩
      cases B with
      | nil =>
        simp only [List.nil_append, List.cons.injEq] at hBC
        obtain ⟨hc, hcs⟩ := hBC
        subst hc
        subst hcs
        simp only [domainGo, Bool.or_eq_true, Bool.and_eq_true, beq_iff_eq]
        exact Or.inl ⟨by simp, (tailAtoms_iff _).mpr ⟨hCne, hC⟩⟩
      | cons b B =>
        simp only [List.cons_append, List.cons.injEq] at hBC
        obtain ⟨hc, hcs⟩ := hBC
        subst hc
        simp only [domainGo, Bool.or_eq_true, Bool.and_eq_true, beq_iff_eq]
        refine Or.inr ⟨hB c (List.mem_cons_self c B), ?_⟩
        exact ih.mpr ⟨B, C, hcs, fun x hx => hB x (List.mem_cons_of_mem c hx), hCne, hC⟩

theorem matchDomain_iff (l : List Char) :
    matchDomain l = true ↔
      ∃ B C, l = B ++ '.' :: C ∧ B ≠ [] ∧ (∀ c ∈ B, atomChar c = true) ∧
        C ≠ [] ∧ ∀ c ∈ C, atomChar c = true := by
  cases l with
  | nil =>
    constructor
    · intro h
      simp [matchDomain] at h
    · rintro ⟨B, C, hBC, -⟩
      exact absurd (List.append_eq_nil.mp hBC.symm).2 (List.cons_ne_nil '.' C)
  | cons c cs =>
    constructor
    · intro h
      simp only [matchDomain, Bool.and_eq_true] at h
      obtain ⟨hatom, hgo⟩ := h
      obtain ⟨B, C, hBC, hB, hCne, hC⟩ := (domainGo_iff cs).mp hgo
      refine ⟨c :: B, C, by rw [hBC, List.cons_append], List.cons_ne_nil c B, ?_, hCne, hC⟩
      intro x hx
      rcases List.mem_cons.mp hx with hxc | hxB
      · subst hxc; exact hatom
      · exact hB x hxB
    · rintro ⟨B, C, hBC, hBne, hB, hCne, hC⟩
      cases B with
      | nil => exact absurd rfl hBne
      | cons b B =>
        simp only [List.cons_append, List.cons.injEq] at hBC
        obtain ⟨hc, hcs⟩ := hBC
        subst hc
        simp only [matchDomain, Bool.and_eq_true]
        refine ⟨hB c (List.mem_cons_self c B), ?_⟩
        exact (domainGo_iff cs).mpr
          ⟨B, C, hcs, fun x hx => hB x (List.mem_cons_of_mem c hx), hCne, hC⟩

theorem localGo_iff (l : List Char) :
    localGo l = true ↔
      ∃ A R, l = A ++ '@' :: R ∧ (∀ c ∈ A, atomChar c = true) ∧
        matchDomain R = true := by
  induction l with
  | nil =>
    constructor
    · intro h
      simp [localGo] at h
    · rintro ⟨A, R, hAR, -⟩
      exact absurd (List.append_eq_nil.mp hAR.symm).2 (List.cons_ne_nil '@' R)
  | cons c cs ih =>
    constructor
    · intro h
      simp only [localGo, Bool.or_eq_true, Bool.and_eq_true, beq_iff_eq] at h
      rcases h with ⟨hat, hdom⟩ | ⟨hatom, hgo⟩
      · subst hat
        exact ⟨[], cs, rfl, by simp, hdom⟩
      · obtain ⟨A, R, hAR, hA, hdom⟩ := ih.mp hgo
        refine ⟨c :: A, R, by rw [hAR, List.cons_append], ?_, hdom⟩
        intro x hx
        rcases List.mem_cons.mp hx with hxc | hxA
        · subst hxc; exact hatom
        · exact hA x hxA
    · rintro ⟨A, R, hAR, hA, hdom⟩
      cases A with
      | nil =>
        simp only [List.nil_append, List.cons.injEq] at hAR
        obtain ⟨hc, hcs⟩ := hAR
        subst hc
        subst hcs
        simp only [localGo, Bool.or_eq_true, Bool.and_eq_true, beq_iff_eq]
        exact Or.inl ⟨by simp, hdom⟩
      | cons a A =>
        simp only [List.cons_append, List.cons.injEq] at hAR
        obtain ⟨hc, hcs⟩ := hAR
        subst hc
        simp only [localGo, Bool.or_eq_true, Bool.and_eq_true, beq_iff_eq]
        refine Or.inr ⟨hA c (List.mem_cons_self c A), ?_⟩
        exact ih.mpr ⟨A, R, hcs, fun x hx => hA x (List.mem_cons_of_mem c hx), hdom⟩

theorem matchEmail_iff (l : List Char) :
    matchEmail l = true ↔
      ∃ A R, l = A ++ '@' :: R ∧ A ≠ [] ∧ (∀ c ∈ A, atomChar c = true) ∧
        matchDomain R = true := by
  cases l with
  | nil =>
    constructor
    · intro h
      simp [matchEmail] at h
    · rintro ⟨A, R, hAR, -⟩
      exact absurd (List.append_eq_nil.mp hAR.symm).2 (List.cons_ne_nil '@' R)
  | cons c cs =>
    constructor
    · intro h
      simp only [matchEmail, Bool.and_eq_true] at h
      obtain ⟨hatom, hgo⟩ := h
      obtain ⟨A, R, hAR, hA, hdom⟩ := (localGo_iff cs).mp hgo
      refine ⟨c :: A, R, by rw [hAR, List.cons_append], List.cons_ne_nil c A, ?_, hdom⟩
      intro x hx
      rcases List.mem_cons.mp hx with hxc | hxA
      · subst hxc; exact hatom
      · exact hA x hxA
    · rintro ⟨A, R, hAR, hAne, hA, hdom⟩
      cases A with
      | nil => exact absurd rfl hAne
      | cons a A =>
        simp only [List.cons_append, List.cons.injEq] at hAR
        obtain ⟨hc, hcs⟩ := hAR
        subst hc
        simp only [matchEmail, Bool.and_eq_true]
        refine ⟨hA c (List.mem_cons_self c A), ?_⟩
        exact (localGo_iff cs).mpr
          ⟨A, R, hcs, fun x hx => hA x (List.mem_cons_of_mem c hx), hdom⟩

theorem matchEmail_shape_iff (l : List Char) :
    matchEmail l = true ↔
      ∃ A B C, l = A ++ '@' :: (B ++ '.' :: C) ∧
        A ≠ [] ∧ B ≠ [] ∧ C ≠ [] ∧
        (∀ c ∈ A, atomChar c = true) ∧ (∀ c ∈ B, atomChar c = true) ∧
        (∀ c ∈ C, atomChar c = true) := by
  rw [matchEmail_iff]
  constructor
  · rintro ⟨A, R, hAR, hAne, hA, hdom⟩
    obtain ⟨B, C, hBC, hBne, hB, hCne, hC⟩ := (matchDomain_iff R).mp hdom
    exact ⟨A, B, C, by rw [hAR, hBC], hAne, hBne, hCne, hA, hB, hC⟩
  · rintro ⟨A, B, C, hl, hAne, hBne, hCne, hA, hB, hC⟩
    exact ⟨A, B ++ '.' :: C, hl, hAne, hA,
      (matchDomain_iff _).mpr ⟨B, C, rfl, hBne, hB, hCne, hC⟩⟩

theorem validateSignupForm_errors_eq (fd : FormData) (mode : Bool) :
    (validateSignupForm fd mode).errors =
      (if mode then
        (if isBlankOpt fd.email then [msgEmailRequired]
         else if !isValidEmail (fd.email.getD "") then [msgEmailInvalid] else [])
       else
        (if isBlankOpt fd.phone then [msgPhoneRequired]
         else if !isValidPhone (fd.phone.getD "") then [msgPhoneInvalidSignup] else [])) ++
      (if isBlankOpt fd.password then [msgPasswordRequired]
       else (validatePassword (fd.password.getD "")).errors) := by
  cases hpw : isBlankOpt fd.password <;>
    cases hv : (validatePassword (fd.password.getD "")).isValid <;>
    cases mode <;>
    simp [validateSignupForm, hpw, hv, addError_errors, apply_ite ValidationResult.errors,
      validatePassword_errors_nil, validatePassword_invariant]

theorem validateSigninForm_errors_eq (fd : FormData) (mode : Bool) :
    (validateSigninForm fd mode).errors =
      (if mode then
        (if isBlankOpt fd.email then [msgSigninEmailRequired]
         else if !isValidEmail (fd.email.getD "") then [msgEmailInvalid] else [])
       else
        (if isBlankOpt fd.phone then [msgPhoneRequired]
         else if !isValidPhone (fd.phone.getD "") then [msgPhoneInvalidSignin] else [])) ++
      (if isBlankOpt fd.password then [msgSigninPasswordRequired] else []) := by
  cases hpw : isBlankOpt fd.password <;>
    cases mode <;>
    simp [validateSigninForm, hpw, addError_errors, apply_ite ValidationResult.errors]

theorem validateSignupForm_invariant (fd : FormData) (mode : Bool) :
    (validateSignupForm fd mode).isValid = (validateSignupForm fd mode).errors.isEmpty := by
  cases hpw : isBlankOpt fd.password <;>
    cases hv : (validatePassword (fd.password.getD "")).isValid <;>
    cases mode <;>
    cases he : isBlankOpt fd.email <;>
    cases hp : isBlankOpt fd.phone <;>
    simp [validateSignupForm, hpw, hv, he, hp, addError,
      validatePassword_errors_nil, validatePassword_errors_ne_nil,
      List.isEmpty_iff, apply_ite ValidationResult.errors,
      apply_ite ValidationResult.isValid] <;>
    split <;>
    simp_all [validatePassword_errors_ne_nil]

theorem validateSigninForm_invariant (fd : FormData) (mode : Bool) :
    (validateSigninForm fd mode).isValid = (validateSigninForm fd mode).errors.isEmpty := by
  cases hpw : isBlankOpt fd.password <;>
    cases mode <;>
    cases he : isBlankOpt fd.email <;>
    cases hp : isBlankOpt fd.phone <;>
    simp [validateSigninForm, hpw, he, hp, addError, List.isEmpty_iff,
      apply_ite ValidationResult.errors, apply_ite ValidationResult.isValid] <;>
    split <;>
    simp_all

theorem digitChar_isDigit {d : Nat} (h : d < 10) : isAsciiDigit (digitChar d) = true := by
  interval_cases d <;> decide

theorem decimalAux_digits : ∀ (fuel n : Nat), ∀ c ∈ decimalAux fuel n, isAsciiDigit c = true := by
  intro fuel
  induction fuel with
  | zero =>
    intro n c hc
    simp [decimalAux] at hc
  | succ fuel ih =>
    intro n c hc
    by_cases hn : n = 0
    · simp [decimalAux, hn] at hc
    · simp only [decimalAux, if_neg hn, List.mem_append, List.mem_singleton] at hc
      rcases hc with h1 | h2
      · exact ih _ c h1
      · subst h2
        exact digitChar_isDigit (Nat.mod_lt n (by norm_num))

theorem decimalAux_length : ∀ (fuel n k : Nat), n ≤ fuel → n < 10 ^ k →
    (decimalAux fuel n).length ≤ k := by
  intro fuel
  induction fuel with
  | zero =>
    intro n k _ _
    simp [decimalAux]
  | succ fuel ih =>
    intro n k hle hlt
    by_cases hn : n = 0
    · simp [decimalAux, hn]
    · simp only [decimalAux, if_neg hn, List.length_append, List.length_cons,
        List.length_nil, Nat.zero_add]
      obtain ⟨k1, rfl⟩ : ∃ k1, k = k1 + 1 := by
        refine ⟨k - 1, ?_⟩
        rcases Nat.eq_zero_or_pos k with hk0 | hkp
        · subst hk0
          simp at hlt
          omega
        · omega
      have h1 : n / 10 ≤ fuel := by omega
      have h2 : n / 10 < 10 ^ k1 := by
        rw [Nat.div_lt_iff_lt_mul (by norm_num : (0 : Nat) < 10)]
        calc n < 10 ^ (k1 + 1) := hlt
        _ = 10 ^ k1 * 10 := by rw [pow_succ]
      exact Nat.add_le_add_right (ih _ k1 h1 h2) 1

theorem natToChars_digits (n : Nat) : ∀ c ∈ natToChars n, isAsciiDigit c = true := by
  intro c hc
  by_cases hn : n = 0
  · simp [natToChars, hn] at hc
    subst hc
    decide
  · simp only [natToChars, if_neg hn] at hc
    exact decimalAux_digits n n c hc

theorem natToChars_length_le (n : Nat) (h : n < 1000000000) : (natToChars n).length ≤ 9 := by
  by_cases hn : n = 0
  · simp [natToChars, hn]
  · simp only [natToChars, if_neg hn]
    exact decimalAux_length n n 9 le_rfl (by norm_num at h ⊢; exact h)

theorem padStart_length {l : List Char} (h : l.length ≤ 9) :
    (padStart 9 '0' l).length = 9 := by
  simp [padStart]
  omega

theorem padStart_digits {l : List Char} (hl : ∀ c ∈ l, isAsciiDigit c = true) :
    ∀ c ∈ padStart 9 '0' l, isAsciiDigit c = true := by
  intro c hc
  rcases List.mem_append.mp hc with h1 | h2
  · have := List.eq_of_mem_replicate h1
    subst this
    decide
  · exact hl c h2

theorem lettersChars_all : ∀ c ∈ lettersChars, isAsciiLetter c = true := by decide

theorem numberChars_all : ∀ c ∈ numberChars, isAsciiDigit c = true := by decide

theorem specialGenChars_all : ∀ c ∈ specialGenChars, isSpecialChar c = true := by decide

theorem generateValidPasswordPre_length (li : Fin 52) (ni : Fin 10) (si : Fin 10)
    (fill : Fin 6 → Fin 62) : (generateValidPasswordPre li ni si fill).length = 9 := by
  simp [generateValidPasswordPre]

/-- C1: every password built by `generateValidPassword` — one random letter, one
random digit, one random special character, six random alphanumeric padding
characters, then an arbitrary shuffle of those nine characters — satisfies the
password policy: `validatePassword` returns `isValid = true` on it. -/
theorem generateValidPassword_round_trip (li : Fin 52) (ni : Fin 10) (si : Fin 10)
    (fill : Fin 6 → Fin 62) (shuffled : List Char)
    (hperm : shuffled.Perm (generateValidPasswordPre li ni si fill)) :
    (validatePassword (String.mk shuffled)).isValid = true := by
  have hlen : shuffled.length = 9 := by
    rw [hperm.length_eq, generateValidPasswordPre_length]
  have hmem : ∀ c, c ∈ generateValidPasswordPre li ni si fill → c ∈ shuffled :=
    fun c hc => hperm.mem_iff.mpr hc
  have hletter : shuffled.any isAsciiLetter = true := by
    rw [List.any_eq_true]
    refine ⟨lettersChars.get (Fin.cast (by rfl) li), hmem _ ?_, ?_⟩
    · simp [generateValidPasswordPre]
    · exact lettersChars_all _ (List.get_mem _ _ _)
  have hdigit : shuffled.any isAsciiDigit = true := by
    rw [List.any_eq_true]
    refine ⟨numberChars.get (Fin.cast (by rfl) ni), hmem _ ?_, ?_⟩
    · simp [generateValidPasswordPre]
    · exact numberChars_all _ (List.get_mem _ _ _)
  have hspecial : shuffled.any isSpecialChar = true := by
    rw [List.any_eq_true]
    refine ⟨specialGenChars.get (Fin.cast (by rfl) si), hmem _ ?_, ?_⟩
    · simp [generateValidPasswordPre]
    · exact specialGenChars_all _ (List.get_mem _ _ _)
  rw [validatePassword_isValid_eq]
  have hd : (String.mk shuffled).data = shuffled := rfl
  rw [hd, hlen, hletter, hdigit, hspecial]
  decide

theorem generateValidPassword_round_trip_w :
    (validatePassword (String.mk
      (generateValidPasswordPre 0 0 0 fun _ => 0))).isValid = true :=
  generateValidPassword_round_trip 0 0 0 (fun _ => 0) _ (List.Perm.refl _)

/-- C2: for every input, `validatePassword`, `validateSignupForm` (either mode)
and `validateSigninForm` (either mode) return a result whose `isValid` flag is
true exactly when the `errors` list is empty — the two fields never disagree. -/
theorem validators_agree_isValid_errors :
    (∀ p : String,
      (validatePassword p).isValid = (validatePassword p).errors.isEmpty) ∧
    (∀ (fd : FormData) (mode : Bool),
      (validateSignupForm fd mode).isValid = (validateSignupForm fd mode).errors.isEmpty) ∧
    (∀ (fd : FormData) (mode : Bool),
      (validateSigninForm fd mode).isValid = (validateSigninForm fd mode).errors.isEmpty) :=
  ⟨validatePassword_invariant, validateSignupForm_invariant, validateSigninForm_invariant⟩

theorem mem_if_singleton {m x : String} {c : Bool} :
    (m ∈ if c then [x] else []) ↔ (c = true ∧ m = x) := by
  cases c <;> simp

/-- C3: `validatePassword` checks its four rules independently: the errors list
contains the minimum-length message iff the password is shorter than 9
characters, the letters message iff it has no ASCII letter, the numbers
message iff it has no ASCII digit, and the special-character message iff it
has none of the ten special characters; `"12345678"` is invalid with both the
too-short and the must-include-letters errors, and `"Password123!"` is valid. -/
theorem validatePassword_rules (p : String) :
    ((msgMinLength ∈ (validatePassword p).errors) ↔ p.data.length < minLength) ∧
    ((msgLetters ∈ (validatePassword p).errors) ↔
      ∀ c ∈ p.data, isAsciiLetter c = false) ∧
    ((msgNumbers ∈ (validatePassword p).errors) ↔
      ∀ c ∈ p.data, isAsciiDigit c = false) ∧
    ((msgSpecial ∈ (validatePassword p).errors) ↔
      ∀ c ∈ p.data, isSpecialChar c = false) ∧
    ((validatePassword "12345678").isValid = false ∧
      msgMinLength ∈ (validatePassword "12345678").errors ∧
      msgLetters ∈ (validatePassword "12345678").errors) ∧
    (validatePassword "Password123!").isValid = true := by
  refine ⟨?_, ?_, ?_, ?_, by decide, by decide⟩ <;>
    rw [validatePassword_errors_eq] <;>
    simp [List.mem_append, mem_if_singleton, msgMinLength, msgLetters, msgNumbers,
      msgSpecial, List.any_eq_false]

/-- C4: `isValidPhone` accepts exactly the strings of exactly 9 decimal digits;
`"501234567"` is accepted, while an 8-digit string, a `+966`-prefixed 13
character string, 9-character strings containing a letter or a dash, and the
empty string are all rejected. -/
theorem isValidPhone_spec (s : String) :
    (isValidPhone s = true ↔
      s.data.length = 9 ∧ ∀ c ∈ s.data, isAsciiDigit c = true) ∧
    isValidPhone "501234567" = true ∧
    isValidPhone "50123456" = false ∧
    isValidPhone "+966501234567" = false ∧
    isValidPhone "50123456a" = false ∧
    isValidPhone "501-23456" = false ∧
    isValidPhone "" = false :=
  ⟨matchDigits_iff 9 s.data, by decide, by decide, by decide, by decide, by decide,
    by decide⟩

/-- C7: `isValidEmail` accepts exactly the strings of shape
`local-part@domain.tld`: a nonempty run of non-whitespace non-`@` characters,
one `@`, and a domain that splits at some dot into two nonempty runs of
non-whitespace non-`@` characters; the empty string, `"@example.com"` and
`"user@domain"` are rejected and `"user@example.com"` is accepted. -/
theorem isValidEmail_spec (s : String) :
    (isValidEmail s = true ↔
      ∃ A B C : List Char, s.data = A ++ '@' :: (B ++ '.' :: C) ∧
        A ≠ [] ∧ B ≠ [] ∧ C ≠ [] ∧
        (∀ c ∈ A, atomChar c = true) ∧ (∀ c ∈ B, atomChar c = true) ∧
        (∀ c ∈ C, atomChar c = true)) ∧
    isValidEmail "" = false ∧
    isValidEmail "@example.com" = false ∧
    isValidEmail "user@domain" = false ∧
    isValidEmail "user@example.com" = true :=
  ⟨matchEmail_shape_iff s.data, by decide, by decide, by decide, by decide⟩

theorem validatePassword_errors_subset (p : String) :
    ∀ m ∈ (validatePassword p).errors,
      m = msgMinLength ∨ m = msgLetters ∨ m = msgNumbers ∨ m = msgSpecial := by
  intro m hm
  rw [validatePassword_errors_eq] at hm
  simp only [List.mem_append, mem_if_singleton] at hm
  tauto

theorem signup_email_mode_errors (fd : FormData) :
    (validateSignupForm fd true).errors =
      (if isBlankOpt fd.email then [msgEmailRequired]
       else if !isValidEmail (fd.email.getD "") then [msgEmailInvalid] else []) ++
      (if isBlankOpt fd.password then [msgPasswordRequired]
       else (validatePassword (fd.password.getD "")).errors) := by
  rw [validateSignupForm_errors_eq]
  simp

theorem signin_email_mode_errors (fd : FormData) :
    (validateSigninForm fd true).errors =
      (if isBlankOpt fd.email then [msgSigninEmailRequired]
       else if !isValidEmail (fd.email.getD "") then [msgEmailInvalid] else []) ++
      (if isBlankOpt fd.password then [msgSigninPasswordRequired] else []) := by
  rw [validateSigninForm_errors_eq]
  simp

/-- C8: in email mode the requiredness message and the format message are
mutually exclusive for both composite validators, and
`validateSignupForm {email:"", password:"x"}` in email mode is invalid with
`"Email is required"` among its errors but not the invalid-format message. -/
theorem email_required_format_exclusive :
    (∀ fd : FormData,
      ¬(msgEmailRequired ∈ (validateSignupForm fd true).errors ∧
        msgEmailInvalid ∈ (validateSignupForm fd true).errors)) ∧
    (∀ fd : FormData,
      ¬(msgEmailRequired ∈ (validateSigninForm fd true).errors ∧
        msgEmailInvalid ∈ (validateSigninForm fd true).errors)) ∧
    ((validateSignupForm ⟨some "", none, some "x"⟩ true).isValid = false ∧
      msgEmailRequired ∈ (validateSignupForm ⟨some "", none, some "x"⟩ true).errors ∧
      msgEmailInvalid ∉ (validateSignupForm ⟨some "", none, some "x"⟩ true).errors) := by
  refine ⟨?_, ?_, by decide⟩
  · rintro fd ⟨h1, h2⟩
    rw [signup_email_mode_errors] at h1 h2
    cases hb : isBlankOpt fd.email <;>
      cases hpw : isBlankOpt fd.password <;>
      simp [hb, hpw, List.mem_append, mem_if_singleton, msgEmailRequired,
        msgEmailInvalid, msgPasswordRequired] at h1 h2 <;>
      first
        | exact absurd (validatePassword_errors_subset _ _ h1) (by decide)
        | exact absurd (validatePassword_errors_subset _ _ h2) (by decide)
  · rintro fd ⟨h1, h2⟩
    rw [signin_email_mode_errors] at h1 h2
    cases hb : isBlankOpt fd.email <;>
      cases hpw : isBlankOpt fd.password <;>
      simp [hb, hpw, List.mem_append, mem_if_singleton, msgEmailRequired,
        msgSigninEmailRequired, msgEmailInvalid, msgSigninPasswordRequired] at h1 h2

/-- C9: for every draw of the random source, `generateRandomPhone` returns
`"+966"` followed by exactly 9 zero-padded decimal digits, and the value left
after stripping the leading `"+966"` satisfies `isValidPhone`. -/
theorem generateRandomPhone_spec (r : Nat) (h : r < 1000000000) :
    (generateRandomPhone r).data.take 4 = ['+', '9', '6', '6'] ∧
    isValidPhone (String.mk ((generateRandomPhone r).data.drop 4)) = true := by
  have hdata : (generateRandomPhone r).data =
      '+' :: '9' :: '6' :: '6' :: padStart 9 '0' (natToChars r) := rfl
  rw [hdata]
  refine ⟨rfl, ?_⟩
  have hlen : (padStart 9 '0' (natToChars r)).length = 9 :=
    padStart_length (natToChars_length_le r h)
  have hdig := padStart_digits (natToChars_digits r)
  exact (matchDigits_iff 9 _).mpr ⟨hlen, hdig⟩

theorem generateRandomPhone_spec_w :
    123 < 1000000000 ∧
    ((generateRandomPhone 123).data.take 4 = ['+', '9', '6', '6'] ∧
      isValidPhone (String.mk ((generateRandomPhone 123).data.drop 4)) = true) :=
  ⟨by decide, generateRandomPhone_spec 123 (by decide)⟩

/-- C10: both composite validators are total on malformed input: a missing
email, phone or password field yields the same `ValidationResult` as an empty
string in that field, and a missing field in the checked position produces the
corresponding requiredness error. -/
theorem validators_total_on_missing_fields :
    (∀ (e p pw : Option String) (mode : Bool),
      validateSignupForm ⟨none, p, pw⟩ mode = validateSignupForm ⟨some "", p, pw⟩ mode ∧
      validateSignupForm ⟨e, none, pw⟩ mode = validateSignupForm ⟨e, some "", pw⟩ mode ∧
      validateSignupForm ⟨e, p, none⟩ mode = validateSignupForm ⟨e, p, some ""⟩ mode ∧
      validateSigninForm ⟨none, p, pw⟩ mode = validateSigninForm ⟨some "", p, pw⟩ mode ∧
      validateSigninForm ⟨e, none, pw⟩ mode = validateSigninForm ⟨e, some "", pw⟩ mode ∧
      validateSigninForm ⟨e, p, none⟩ mode = validateSigninForm ⟨e, p, some ""⟩ mode) ∧
    (∀ p pw : Option String,
      msgEmailRequired ∈ (validateSignupForm ⟨none, p, pw⟩ true).errors ∧
      msgSigninEmailRequired ∈ (validateSigninForm ⟨none, p, pw⟩ true).errors) ∧
    (∀ e pw : Option String,
      msgPhoneRequired ∈ (validateSignupForm ⟨e, none, pw⟩ false).errors ∧
      msgPhoneRequired ∈ (validateSigninForm ⟨e, none, pw⟩ false).errors) ∧
    (∀ (e p : Option String) (mode : Bool),
      msgPasswordRequired ∈ (validateSignupForm ⟨e, p, none⟩ mode).errors ∧
      msgSigninPasswordRequired ∈ (validateSigninForm ⟨e, p, none⟩ mode).errors) := by
  refine ⟨fun e p pw mode => ⟨rfl, rfl, rfl, rfl, rfl, rfl⟩, ?_, ?_, ?_⟩
  · intro p pw
    constructor <;>
      simp [validateSignupForm_errors_eq, validateSigninForm_errors_eq, isBlankOpt]
  · intro e pw
    constructor <;>
      simp [validateSignupForm_errors_eq, validateSigninForm_errors_eq, isBlankOpt]
  · intro e p mode
    constructor <;>
      simp [validateSignupForm_errors_eq, validateSigninForm_errors_eq, isBlankOpt]

/-- C5 as stated is false: with the non-blank phone `"123"` that fails
`isValidPhone`, neither composite validator in phone mode ever emits the exact
string `"Please enter a valid phone number"` — the sign-up validator emits
`"Please enter a valid phone number (+966XXXXXXXXX)"` and the sign-in
validator emits `"Please enter a valid mobile number"`. -/
theorem phone_invalid_message_cex :
    isBlankOpt (some "123") = false ∧
    isValidPhone "123" = false ∧
    "Please enter a valid phone number" ∉
      (validateSignupForm ⟨none, some "123", some "Password123!"⟩ false).errors ∧
    "Please enter a valid phone number" ∉
      (validateSigninForm ⟨none, some "123", some "Password123!"⟩ false).errors := by
  decide

/-- C5 amended: for every form whose phone field is non-blank and fails
`isValidPhone`, the phone-mode validators append exactly one phone-format
error, placed first: the sign-up validator the literal
`"Please enter a valid phone number (+966XXXXXXXXX)"` and the sign-in
validator the literal `"Please enter a valid mobile number"`. -/
theorem phone_invalid_message (fd : FormData)
    (h1 : isBlankOpt fd.phone = false)
    (h2 : isValidPhone (fd.phone.getD "") = false) :
    (validateSignupForm fd false).errors =
      msgPhoneInvalidSignup ::
        (if isBlankOpt fd.password then [msgPasswordRequired]
         else (validatePassword (fd.password.getD "")).errors) ∧
    (validateSigninForm fd false).errors =
      msgPhoneInvalidSignin ::
        (if isBlankOpt fd.password then [msgSigninPasswordRequired] else []) := by
  constructor
  · rw [validateSignupForm_errors_eq]
    simp [h1, h2]
  · rw [validateSigninForm_errors_eq]
    simp [h1, h2]

theorem phone_invalid_message_w :
    isBlankOpt (FormData.mk none (some "123") (some "x")).phone = false ∧
    isValidPhone ((FormData.mk none (some "123") (some "x")).phone.getD "") = false ∧
    ((validateSignupForm ⟨none, some "123", some "x"⟩ false).errors =
      msgPhoneInvalidSignup ::
        (if isBlankOpt (FormData.mk none (some "123") (some "x")).password
         then [msgPasswordRequired]
         else (validatePassword
           ((FormData.mk none (some "123") (some "x")).password.getD "")).errors) ∧
     (validateSigninForm ⟨none, some "123", some "x"⟩ false).errors =
      msgPhoneInvalidSignin ::
        (if isBlankOpt (FormData.mk none (some "123") (some "x")).password
         then [msgSigninPasswordRequired] else [])) :=
  ⟨by decide, by decide,
    phone_invalid_message ⟨none, some "123", some "x"⟩ (by decide) (by decide)⟩

/-- C6 as stated is false for the sign-in validator: with the non-empty
password `"x"` (which fails the policy) it reports no error at all, and with a
missing password it emits `"Please enter your password"`, not
`"Password is required"`. -/
theorem signin_password_policy_cex :
    (validateSigninForm ⟨some "user@example.com", none, some "x"⟩ true).errors = [] ∧
    (validatePassword "x").errors ≠ [] ∧
    msgPasswordRequired ∉
      (validateSigninForm ⟨some "user@example.com", none, none⟩ true).errors ∧
    (validateSigninForm ⟨some "user@example.com", none, none⟩ true).errors =
      [msgSigninPasswordRequired] := by
  decide

/-- C6 amended: in either mode, the sign-up validator appends
`"Password is required"` for a blank or missing password and otherwise runs
`validatePassword` and appends all of its errors after the identity-field
errors; the sign-in validator appends `"Please enter your password"` for a
blank or missing password and runs no policy sub-check for a present one. -/
theorem password_check_structure (fd : FormData) (mode : Bool) :
    (validateSignupForm fd mode).errors =
      (if mode then
        (if isBlankOpt fd.email then [msgEmailRequired]
         else if !isValidEmail (fd.email.getD "") then [msgEmailInvalid] else [])
       else
        (if isBlankOpt fd.phone then [msgPhoneRequired]
         else if !isValidPhone (fd.phone.getD "") then [msgPhoneInvalidSignup] else [])) ++
      (if isBlankOpt fd.password then [msgPasswordRequired]
       else (validatePassword (fd.password.getD "")).errors) ∧
    (validateSigninForm fd mode).errors =
      (if mode then
        (if isBlankOpt fd.email then [msgSigninEmailRequired]
         else if !isValidEmail (fd.email.getD "") then [msgEmailInvalid] else [])
       else
        (if isBlankOpt fd.phone then [msgPhoneRequired]
         else if !isValidPhone (fd.phone.getD "") then [msgPhoneInvalidSignin] else [])) ++
      (if isBlankOpt fd.password then [msgSigninPasswordRequired] else []) :=
  ⟨validateSignupForm_errors_eq fd mode, validateSigninForm_errors_eq fd mode⟩
